import Mathlib

/-!
Verification of the eden-burner job-queue orchestration core.

The definitions below are a shallow embedding of the Python sources:
- `src/app/job_queue.py` (`JobStatus`, `BurnJob`, `JobQueue`),
- `src/app/background_worker.py` (`BackgroundWorker`),
- `src/services/jdf_handler.py` (`JDFHandler`).

Modelling conventions:
- Python `datetime` values become `Nat` ticks supplied by the caller (`now`).
- Job ids and ISO ids (`iso_info["id"]`) become `Nat`.
- `float` progress values become `Nat` (the code only ever stores 0.0, 50.0,
  100.0 and a download percentage).
- Side effects that leave the queue state (subscriber notification, GraphQL
  write-through, download-abort requests) are recorded as `Event` values.
- Threads spawned by `_start_download` / `_start_burning` are tracked in the
  `downloads` / `burn_threads` fields of `QueueState`; their completions are
  separate transitions of the `Step` relation.
-/

namespace EdenBurner

/-- `JobStatus` enumeration from `src/app/job_queue.py` lines 65-78. -/
inductive JobStatus
  | pending
  | downloading
  | downloaded
  | generating_jdf
  | jdf_ready
  | queued_for_burning
  | burning
  | verifying
  | completed
  | failed
  | cancelled
deriving DecidableEq, Repr

/-- Boolean membership test mirroring Python `status in [...]` checks. -/
def status_mem (s : JobStatus) : List JobStatus → Bool
  | [] => false
  | t :: ts => decide (s = t) || status_mem s ts

/-- The statuses counted as active by `_can_process_job`
(`src/app/job_queue.py` line 385). -/
def in_progress_statuses : List JobStatus :=
  [.downloading, .burning, .verifying]

/-- `BurnJob` dataclass from `src/app/job_queue.py` lines 81-108.
`iso_id` stands for `iso_info["id"]`; the unused `robot_job_id` and
`estimated_completion` fields (never written by the code) are omitted. -/
structure BurnJob where
  id : Nat
  iso_id : Nat
  status : JobStatus
  created_at : Nat
  updated_at : Nat
  iso_path : Option String
  jdf_path : Option String
  progress : Nat
  error_message : Option String
  retry_count : Nat
  notification_sent : Bool
  disc_type : Option String
deriving DecidableEq, Repr

/-- The dataclass defaults used by `JobQueue.add_job` when constructing
`BurnJob(id=job_id, iso_info=iso_info)`. -/
def new_burn_job (id iso_id now : Nat) : BurnJob :=
  { id := id, iso_id := iso_id, status := .pending, created_at := now,
    updated_at := now, iso_path := none, jdf_path := none, progress := 0,
    error_message := none, retry_count := 0, notification_sent := false,
    disc_type := none }

/-- `BurnJob.update_status` (`src/app/job_queue.py` lines 134-153).
Returns the updated job and whether `update_status_to_api` was invoked
(`has_job_queue` models whether the caller passed `job_queue=self`; the API
call itself catches its own exceptions and never mutates the job). -/
def BurnJob.update_status (job : BurnJob) (status : JobStatus)
    (error_message : Option String) (now : Nat) (has_job_queue : Bool) :
    BurnJob × Bool :=
  if job.status = status then (job, false)
  else
    let j := { job with
      status := status, updated_at := now,
      error_message := error_message, notification_sent := false }
    (j, has_job_queue && status_mem status [.completed, .failed])

/-- `BurnJob.can_retry` (`src/app/job_queue.py` lines 184-189). -/
def BurnJob.can_retry (job : BurnJob) (max_retries : Nat) : Bool :=
  decide (job.retry_count < max_retries) &&
    status_mem job.status [.failed, .completed]

/-- `BurnJob.detect_disc_type` (`src/app/job_queue.py` lines 110-132),
on a file size in bytes. The Python code computes
`size_mb = file_size / (1024 * 1024)` as a float and compares
`size_mb < 700` and `size_mb <= 4.5 * 1024`; for every integer byte count the
IEEE-754 comparison agrees with the exact rational one (the quotient is exact
whenever `file_size < 2^53`, and above that it is far beyond both bounds), so
the comparisons are modelled exactly on `Nat` after scaling by `2^20`. -/
def detect_disc_type (size_bytes : Nat) : Except String String :=
  if size_bytes < 700 * 1048576 then .ok "CD"
  else if size_bytes ≤ 4608 * 1048576 then .ok "DVD"
  else .error "File size exceeds 4.5GB"

/-- Observable side effects of queue operations: subscriber notification
(`_notify_job_update`), GraphQL status write-through (`update_status_to_api`)
and download-abort requests (`download_manager.cancel_download`). -/
inductive Event
  | notify (job : BurnJob)
  | api_update (iso_id : Nat) (status : JobStatus) (message : Option String)
  | cancel_download (iso_id : Nat)
deriving DecidableEq, Repr

/-- Events produced by `update_status_to_api` when `update_status` fired it;
the error message is forwarded only for FAILED (line 171). -/
def api_events (fired : Bool) (job : BurnJob) : List Event :=
  if fired then
    [.api_update job.iso_id job.status
      (if job.status = .failed then job.error_message else none)]
  else []

/-- The mutable state owned by `JobQueue` (`self.jobs`, `self.job_queue`)
plus bookkeeping for spawned worker threads: `downloads` holds ids of jobs
with an in-flight `_download_worker` thread, `burn_threads` ids of jobs with
a running `_burn_loop` thread. -/
structure QueueState where
  jobs : List BurnJob
  job_queue : List Nat
  downloads : List Nat
  burn_threads : List Nat
deriving DecidableEq, Repr

/-- State of a freshly constructed `JobQueue`. -/
def init_state : QueueState := ⟨[], [], [], []⟩

/-- Dictionary lookup `self.jobs[job_id]` (insertion-ordered). -/
def find_job (st : QueueState) (id : Nat) : Option BurnJob :=
  st.jobs.find? (fun j => j.id == id)

/-- Writing back a mutated job object: the Python handlers mutate the shared
`BurnJob` object in place, which in this embedding replaces the entry with
the same id. -/
def set_job (st : QueueState) (j : BurnJob) : QueueState :=
  { st with jobs := st.jobs.map (fun k => if k.id == j.id then j else k) }

/-- `len([j for j in self.jobs.values() if j.status in in_progress_statuses])`
(`src/app/job_queue.py` line 386). -/
def active_count (jobs : List BurnJob) : Nat :=
  (jobs.filter (fun j => status_mem j.status in_progress_statuses)).length

/-- `JobQueue._can_process_job` (`src/app/job_queue.py` lines 383-393). -/
def can_process_job (jobs : List BurnJob) (max_concurrent : Nat)
    (job : BurnJob) : Bool :=
  decide (active_count jobs < max_concurrent) ||
    !(status_mem job.status in_progress_statuses)

/-- The `while self.job_queue:` loop of `JobQueue.get_next_job`
(`src/app/job_queue.py` lines 357-381), as structural recursion on the
dispatch list. Returns the selected job (if any) and the dispatch list as
left by the loop's `pop(0)` calls. -/
def get_next_job_aux (jobs : List BurnJob) (max_concurrent : Nat) :
    List Nat → Option BurnJob × List Nat
  | [] => (none, [])
  | id :: rest =>
    match jobs.find? (fun j => j.id == id) with
    | none => get_next_job_aux jobs max_concurrent rest
    | some job =>
      if status_mem job.status [.cancelled, .completed, .failed] then
        get_next_job_aux jobs max_concurrent rest
      else if can_process_job jobs max_concurrent job then (some job, rest)
      else (none, id :: rest)

/-- `JobQueue.get_next_job` (`src/app/job_queue.py` lines 332-381). -/
def get_next_job (st : QueueState) (max_concurrent : Nat) :
    Option BurnJob × List Nat :=
  get_next_job_aux st.jobs max_concurrent st.job_queue

/-- `JobQueue.add_job` (`src/app/job_queue.py` lines 286-330); `job_id` is
the fresh UUID generated at line 317. -/
def add_job (st : QueueState) (job_id iso_id now : Nat) :
    QueueState × List Event :=
  let job := new_burn_job job_id iso_id now
  ({ st with jobs := st.jobs ++ [job], job_queue := st.job_queue ++ [job_id] },
   [.notify job])

/-- Result of an operation returning a `bool` and mutating the queue. -/
structure OpResult where
  ret : Bool
  st : QueueState
  events : List Event
deriving Repr

/-- `JobQueue.cancel_job` (`src/app/job_queue.py` lines 577-610). -/
def cancel_job (st : QueueState) (job_id now : Nat) : OpResult :=
  match find_job st job_id with
  | none => ⟨false, st, []⟩
  | some job =>
    if status_mem job.status [.completed, .failed, .cancelled] then
      ⟨false, st, []⟩
    else
      let was_downloading := decide (job.status = .downloading)
      let r := job.update_status .cancelled (some "Cancelled by user") now true
      let st1 := set_job st r.1
      let st2 := { st1 with job_queue := st1.job_queue.erase job_id }
      ⟨true, st2,
        api_events r.2 r.1 ++
          (if was_downloading then [.cancel_download job.iso_id] else []) ++
          [.notify r.1]⟩

/-- `JobQueue.retry_job` (`src/app/job_queue.py` lines 612-644).
`_cleanup_job_files` only touches the filesystem, so it has no effect on the
queue state. -/
def retry_job (st : QueueState) (job_id now : Nat) : OpResult :=
  match find_job st job_id with
  | none => ⟨false, st, []⟩
  | some job =>
    let r := job.update_status .pending none now false
    let job2 := { r.1 with
      error_message := none, progress := 0, notification_sent := false,
      iso_path := none, jdf_path := none }
    let st1 := set_job st job2
    let st2 := { st1 with job_queue := st1.job_queue ++ [job_id] }
    ⟨true, st2, [.notify job2]⟩

/-- The three ways `download_manager.download_iso` can come back in
`_download_worker`: a path for a file of the given size, a falsy result, or
a raised exception. -/
inductive DownloadOutcome
  | success (iso_path : String) (size_bytes : Nat)
  | returned_none
  | raised (msg : String)
deriving DecidableEq, Repr

/-- The effect of `JobQueue._download_worker` (`src/app/job_queue.py`
lines 431-456) on the shared job object; returns the mutated job and whether
the API write-through fired. If `detect_disc_type` raises, the exception is
caught by the outer `except` and the job is failed with `str(e)`. -/
def download_worker_job (job : BurnJob) (outcome : DownloadOutcome)
    (now : Nat) : BurnJob × Bool :=
  match outcome with
  | .success path size_bytes =>
    let job1 := { job with iso_path := some path }
    match detect_disc_type size_bytes with
    | .ok dt =>
      let job2 := { job1 with disc_type := some dt }
      if job2.status = .cancelled then (job2, false)
      else job2.update_status .downloaded none now false
    | .error msg =>
      job1.update_status .failed (some msg) now true
  | .returned_none =>
    if job.status = .cancelled then (job, false)
    else job.update_status .failed (some "Download failed") now true
  | .raised msg =>
    job.update_status .failed (some msg) now true

/-- `_download_worker` at the queue level: the thread mutates the shared job
and finally notifies; the thread itself terminates (removed from
`downloads`). -/
def download_worker (st : QueueState) (job_id : Nat)
    (outcome : DownloadOutcome) (now : Nat) : QueueState × List Event :=
  match find_job st job_id with
  | none => ({ st with downloads := st.downloads.erase job_id }, [])
  | some job =>
    let r := download_worker_job job outcome now
    ({ set_job st r.1 with downloads := st.downloads.erase job_id },
     api_events r.2 r.1 ++ [.notify r.1])

/-- `JobQueue._start_download` (`src/app/job_queue.py` lines 417-429):
marks the job DOWNLOADING, notifies, and spawns a download thread. -/
def start_download (st : QueueState) (job : BurnJob) (now : Nat) :
    QueueState × List Event :=
  if job.status = .cancelled then (st, [])
  else
    let r := job.update_status .downloading none now false
    ({ set_job st r.1 with downloads := st.downloads ++ [job.id] },
     [.notify r.1])

/-- `JobQueue._start_jdf_generation` (`src/app/job_queue.py` lines 471-507).
`jdf_result` is the outcome of `JDFGenerator(job.id).create_burn_job_jdf()`:
a produced path or the raised exception's message. -/
def start_jdf_generation (st : QueueState) (job : BurnJob)
    (jdf_result : Except String String) (now : Nat) :
    QueueState × List Event :=
  if job.status = .cancelled then (st, [])
  else if job.iso_path = none then
    let r := job.update_status .failed (some "No ISO file path") now true
    (set_job st r.1, api_events r.2 r.1 ++ [.notify r.1])
  else
    let r1 := job.update_status .generating_jdf none now false
    let st1 := set_job st r1.1
    match jdf_result with
    | .ok path =>
      let job2 := { r1.1 with jdf_path := some path }
      let r2 := job2.update_status .jdf_ready none now false
      (set_job st1 r2.1, [.notify r1.1, .notify r2.1])
    | .error e =>
      let r2 := r1.1.update_status .failed
        (some ("JDF generation failed: " ++ e)) now true
      (set_job st1 r2.1,
       [.notify r1.1] ++ api_events r2.2 r2.1 ++ [.notify r2.1])

/-- `JobQueue._queue_for_burning` (`src/app/job_queue.py` lines 509-518). -/
def queue_for_burning (st : QueueState) (job : BurnJob) (now : Nat) :
    QueueState × List Event :=
  if job.status = .cancelled then (st, [])
  else
    let r := job.update_status .queued_for_burning none now false
    (set_job st r.1, [.notify r.1])

/-- `JobQueue._start_burning` (`src/app/job_queue.py` lines 520-535):
marks the job BURNING with progress 0 and spawns the `_burn_loop` thread. -/
def start_burning (st : QueueState) (job : BurnJob) (now : Nat) :
    QueueState × List Event :=
  if job.status = .cancelled then (st, [])
  else
    let r := job.update_status .burning none now false
    let job2 := { r.1 with progress := 0 }
    ({ set_job st job2 with burn_threads := st.burn_threads ++ [job.id] },
     [.notify job2])

/-- `JobQueue.start_job_processing` (`src/app/job_queue.py` lines 395-415):
the `if/elif` dispatch on the job's current status. The handlers in this
embedding raise no exceptions, so the outer `except` never fires. -/
def start_job_processing (st : QueueState) (job : BurnJob)
    (jdf_result : Except String String) (now : Nat) :
    QueueState × List Event :=
  if job.status = .cancelled then (st, [])
  else if job.status = .pending then start_download st job now
  else if job.status = .downloaded then
    start_jdf_generation st job jdf_result now
  else if job.status = .jdf_ready then queue_for_burning st job now
  else if job.status = .queued_for_burning then start_burning st job now
  else (st, [])

/-- `JDFHandler.Status` (`src/services/jdf_handler.py` lines 15-20). -/
inductive JdfStatus
  | waiting
  | processing
  | error
  | success
  | not_found
deriving DecidableEq, Repr

/-- `JobQueue._check_burn_status` (`src/app/job_queue.py` lines 554-575) on
the shared job object, given the marker status read by `JDFHandler`; returns
the mutated job and whether the API write-through fired. The ERROR marker
raises inside the `try`, which the function's own `except` converts to a
FAILED transition with message `"Burning failed: " + str(e)`. -/
def check_burn_status_job (job : BurnJob) (marker : JdfStatus) (now : Nat) :
    BurnJob × Bool :=
  match marker with
  | .success =>
    let r := job.update_status .completed none now true
    ({ r.1 with progress := 100 }, r.2)
  | .processing => ({ job with progress := 50 }, false)
  | .error =>
    job.update_status .failed
      (some ("Burning failed: Burner responded with error for job " ++
        toString job.id)) now true
  | .waiting => (job, false)
  | .not_found => (job, false)

/-- One iteration of `JobQueue._burn_loop` (`src/app/job_queue.py`
lines 537-552): exits when the job left BURNING, fails the job on timeout
(the raise is caught by the loop's `except`), otherwise polls
`_check_burn_status` and notifies. -/
def burn_loop_tick (st : QueueState) (job_id : Nat) (timed_out : Bool)
    (marker : JdfStatus) (now : Nat) : QueueState × List Event :=
  match find_job st job_id with
  | none => (st, [])
  | some job =>
    if job.status = .burning then
      if timed_out then
        let r := job.update_status .failed (some "Burning timed out") now true
        ({ set_job st r.1 with burn_threads := st.burn_threads.erase job_id },
         api_events r.2 r.1 ++ [.notify r.1])
      else
        let r := check_burn_status_job job marker now
        (set_job st r.1, api_events r.2 r.1 ++ [.notify r.1])
    else
      ({ st with burn_threads := st.burn_threads.erase job_id }, [])

/-- `BackgroundWorker._check_ready_jobs` (`src/app/background_worker.py`
lines 255-282): collects jobs in an intermediate ready state and processes
the first one if the active count is below the limit (the loop breaks after
processing one; when over capacity the recomputed count never changes, so no
later ready job is processed either). -/
def check_ready_jobs (st : QueueState) (max_concurrent : Nat)
    (jdf_result : Except String String) (now : Nat) :
    QueueState × List Event :=
  let ready := st.jobs.filter (fun j =>
    status_mem j.status [.downloaded, .jdf_ready, .queued_for_burning])
  match ready with
  | [] => (st, [])
  | job :: _ =>
    if active_count st.jobs < max_concurrent then
      start_job_processing st job jdf_result now
    else (st, [])

/-- The dispatch half of `BackgroundWorker._process_job_queue`
(`src/app/background_worker.py` lines 236-253): `get_next_job` followed by
`start_job_processing` when a job was returned. -/
def process_job_queue_dispatch (st : QueueState) (max_concurrent : Nat)
    (jdf_result : Except String String) (now : Nat) :
    QueueState × List Event :=
  match get_next_job st max_concurrent with
  | (some job, q) => start_job_processing { st with job_queue := q }
      job jdf_result now
  | (none, q) => ({ st with job_queue := q }, [])

/-- `JobQueue._on_download_progress` (`src/app/job_queue.py` lines 458-469):
updates the first DOWNLOADING job whose ISO id matches. -/
def on_download_progress (st : QueueState) (iso_id pct now : Nat) :
    QueueState × List Event :=
  match st.jobs.find? (fun j => j.iso_id == iso_id &&
      decide (j.status = .downloading)) with
  | none => (st, [])
  | some job =>
    let j := { job with progress := pct, updated_at := now }
    (set_job st j, [.notify j])

/-- `JobQueue.cleanup_completed_jobs` (`src/app/job_queue.py` lines 712-733);
`cutoff` is `now - max_age_days` in ticks. -/
def cleanup_completed_jobs (st : QueueState) (cutoff : Nat) : QueueState :=
  { st with jobs := st.jobs.filter (fun j =>
      !(status_mem j.status [.completed, .failed] &&
        decide (j.updated_at < cutoff))) }

/-- One interleaving step of the system: any of the operations the
background worker, the GUI, or a spawned worker thread can perform on the
shared queue state. `mc` is `app_config.max_concurrent_jobs`. -/
inductive Step (mc : Nat) : QueueState → QueueState → Prop
  | add (st : QueueState) (id iso_id now : Nat)
      (h : find_job st id = none) :
      Step mc st (add_job st id iso_id now).1
  | dispatch (st : QueueState) (jdf_result : Except String String)
      (now : Nat) :
      Step mc st (process_job_queue_dispatch st mc jdf_result now).1
  | ready (st : QueueState) (jdf_result : Except String String) (now : Nat) :
      Step mc st (check_ready_jobs st mc jdf_result now).1
  | download_done (st : QueueState) (id : Nat) (outcome : DownloadOutcome)
      (now : Nat) (h : id ∈ st.downloads) :
      Step mc st (download_worker st id outcome now).1
  | burn_tick (st : QueueState) (id : Nat) (timed_out : Bool)
      (marker : JdfStatus) (now : Nat) (h : id ∈ st.burn_threads) :
      Step mc st (burn_loop_tick st id timed_out marker now).1
  | cancel (st : QueueState) (id now : Nat) :
      Step mc st (cancel_job st id now).st
  | retry (st : QueueState) (id now : Nat) :
      Step mc st (retry_job st id now).st
  | progress_cb (st : QueueState) (iso_id pct now : Nat) :
      Step mc st (on_download_progress st iso_id pct now).1
  | cleanup (st : QueueState) (cutoff : Nat) :
      Step mc st (cleanup_completed_jobs st cutoff)

/-- States reachable from a freshly constructed queue. -/
inductive Reachable (mc : Nat) : QueueState → Prop
  | init : Reachable mc init_state
  | step {s t : QueueState} : Reachable mc s → Step mc s t → Reachable mc t

/-- `p` is an initial segment of `s`, character by character. -/
def starts_with_chars : List Char → List Char → Bool
  | [], _ => true
  | _ :: _, [] => false
  | c :: cs, d :: ds => decide (c = d) && starts_with_chars cs ds

/-- `p` is a final segment of `s`, character by character. -/
def ends_with_chars (p s : List Char) : Bool :=
  starts_with_chars p.reverse s.reverse

/-- `fnmatch`-style matching of a filename against the glob pattern
`stem*.ext` used by `JDFHandler` (`self.parent.glob(...)`,
`src/services/jdf_handler.py` line 69): the name decomposes as
`stem ++ mid ++ "." ++ ext` for some (possibly empty) `mid`. The model
assumes the stem contains no glob metacharacters, and matching is
case-sensitive. -/
def glob_match (stem ext name : String) : Bool :=
  starts_with_chars stem.toList name.toList &&
    ends_with_chars ("." ++ ext).toList (name.toList.drop stem.toList.length)

/-- Whether the job's directory (modelled as the list of sibling filenames)
holds at least one marker file `stem*.ext`. `sorted(...)` in the source only
orders the matches and cannot affect whether any exist. -/
def has_marker (dir : List String) (stem ext : String) : Bool :=
  dir.any (glob_match stem ext)

/-- The fixed extension-to-status priority table of `JDFHandler.get_status`
(`src/services/jdf_handler.py` lines 61-67): ERR > DON > INP > JDF. -/
def file_ext_map : List (String × JdfStatus) :=
  [("ERR", .error), ("DON", .success), ("INP", .processing),
   ("JDF", .waiting)]

/-- `JDFHandler.get_status` (`src/services/jdf_handler.py` lines 54-72):
the first extension in priority order with a match determines the status;
with no match the status is NOT_FOUND. -/
def jdf_get_status (dir : List String) (stem : String) : JdfStatus :=
  match file_ext_map.find? (fun p => has_marker dir stem p.1) with
  | some p => p.2
  | none => .not_found

/-- A subscriber callback registered with `add_job_update_callback`; it may
raise, modelled by the `Except` result. -/
def Callback : Type := BurnJob → Except String Unit

/-- Trace of what `_notify_job_update` did: which callback (by registration
index) was invoked, and which raised exceptions were caught and logged. -/
inductive NotifyEvent
  | invoked (idx : Nat) (job : BurnJob)
  | logged_error (idx : Nat) (msg : String)
deriving DecidableEq, Repr

/-- The `for callback in self.job_update_callbacks: try ... except` loop of
`JobQueue._notify_job_update` (`src/app/job_queue.py` lines 278-284): every
callback is called in turn; an exception is caught and logged, after which
the loop continues with the next callback. The pure return type reflects
that nothing ever propagates to the caller. -/
def run_callbacks (job : BurnJob) : Nat → List Callback → List NotifyEvent
  | _, [] => []
  | idx, cb :: rest =>
    match cb job with
    | .ok _ => .invoked idx job :: run_callbacks job (idx + 1) rest
    | .error e =>
      .invoked idx job :: .logged_error idx e ::
        run_callbacks job (idx + 1) rest

/-- `JobQueue._notify_job_update` over the registered callback list. -/
def notify_job_update (callbacks : List Callback) (job : BurnJob) :
    List NotifyEvent :=
  run_callbacks job 0 callbacks

/-- Outcome of `graphql_client.query_new_isos` in
`BackgroundWorker.check_for_new_isos`: a list of ISO ids, or a raised
exception caught by the surrounding `try`. -/
inductive QueryResult
  | ok (isos : List Nat)
  | raised (msg : String)
deriving DecidableEq, Repr

/-- Observable outcome of one `check_for_new_isos` run: the returned
boolean, the ISO ids for which `add_job` was executed, and whether
`self.last_api_check` was assigned. -/
structure CheckResult where
  ret : Bool
  added : List Nat
  last_check_recorded : Bool
deriving DecidableEq, Repr

/-- The `for iso_info in new_isos:` loop of `check_for_new_isos`
(`src/app/background_worker.py` lines 314-332). `existing` is the set of
ISO ids that already have a job (it grows as jobs are added within the same
batch, since the duplicate check consults `get_all_jobs()`); `save_ok`
tells whether `db.BurnJob.save_job` succeeds for an ISO — when it raises,
the per-item `except` swallows it after `add_job` already ran, so the job
exists but `added_count` is not incremented. Returns the ids added and the
final `added_count`. -/
def add_new_isos (save_ok : Nat → Bool) :
    List Nat → List Nat → List Nat × Nat
  | _, [] => ([], 0)
  | existing, iso :: rest =>
    if existing.contains iso then add_new_isos save_ok existing rest
    else
      let r := add_new_isos save_ok (existing ++ [iso]) rest
      (iso :: r.1, (if save_ok iso then 1 else 0) + r.2)

/-- `BackgroundWorker.check_for_new_isos` (`src/app/background_worker.py`
lines 293-344). Note the early `return False` when the query result is
empty, which skips the `self.last_api_check = datetime.now()` assignment. -/
def check_for_new_isos (existing : List Nat) (query : QueryResult)
    (save_ok : Nat → Bool) : CheckResult :=
  match query with
  | .raised _ => ⟨false, [], false⟩
  | .ok isos =>
    if isos.isEmpty then ⟨false, [], false⟩
    else
      let r := add_new_isos save_ok existing isos
      ⟨decide (0 < r.2), r.1, true⟩

/-- An id the `get_next_job` loop discards from the head of the dispatch
list: missing from the job table, or referring to a terminal job. -/
def dropped_id (jobs : List BurnJob) (id : Nat) : Prop :=
  jobs.find? (fun j => j.id == id) = none ∨
    ∃ j, jobs.find? (fun j => j.id == id) = some j ∧
      status_mem j.status [.cancelled, .completed, .failed] = true

/-- A job record whose `error_message`, when present, was installed by a
transition into FAILED or CANCELLED. -/
def JobOk (j : BurnJob) : Prop :=
  j.error_message ≠ none → j.status = .failed ∨ j.status = .cancelled

/-- Every job in the table satisfies `JobOk`. -/
def InvErr (s : QueueState) : Prop := ∀ j ∈ s.jobs, JobOk j

/-- The JDF-generation outcome used in the concrete traces below (its value
is irrelevant to the PENDING-stage dispatches they perform). -/
def c1_jr : Except String String := .ok "jdf"

/-- Trace for C1, with `max_concurrent_jobs = 1`: add two jobs. -/
def c1_s1 : QueueState := (add_job init_state 1 101 0).1

/-- Trace for C1: second job added. -/
def c1_s2 : QueueState := (add_job c1_s1 2 102 0).1

/-- Trace for C1: first worker tick dispatches job 1 (PENDING passes the
gate, `active = 0 < 1`) and starts its download. -/
def c1_s3 : QueueState := (process_job_queue_dispatch c1_s2 1 c1_jr 1).1

/-- Trace for C1: second worker tick dispatches job 2 even though
`active = 1` is already at the limit, because PENDING is not an active
status; job 2 also enters DOWNLOADING. -/
def c1_s4 : QueueState := (process_job_queue_dispatch c1_s3 1 c1_jr 2).1

/-- Trace for C6: one job added. -/
def c6_s1 : QueueState := (add_job init_state 1 101 0).1

/-- Trace for C6: the job is cancelled while PENDING. -/
def c6_s2 : QueueState := (cancel_job c6_s1 1 1).st

/-- The cancelled job produced by the C6 trace. -/
def c6_bad_job : BurnJob :=
  { new_burn_job 1 101 0 with
    status := .cancelled, updated_at := 1,
    error_message := some "Cancelled by user", notification_sent := false }

/-- A job already in the active BURNING state, used to exercise the gate. -/
def w_burning_job : BurnJob := { new_burn_job 1 11 0 with status := .burning }

/-- Queue holding one BURNING job at the head of the dispatch list. -/
def w_state_c1 : QueueState := ⟨[w_burning_job], [1], [], []⟩

/-- A terminal (COMPLETED) job, dropped by the dispatch scan. -/
def w_done_job : BurnJob := { new_burn_job 1 11 0 with status := .completed }

/-- A PENDING job behind the terminal one. -/
def w_pend_job : BurnJob := new_burn_job 2 12 0

/-- Job table for the C2 witness. -/
def w_jobs_c2 : List BurnJob := [w_done_job, w_pend_job]

/-- Queue for the C2 witness: a terminal job ahead of a PENDING one. -/
def w_st_c2 : QueueState := ⟨w_jobs_c2, [1, 2], [], []⟩

/-- A DOWNLOADING job, used to exercise cancellation mid-fetch. -/
def w_dl_job : BurnJob := { new_burn_job 3 13 0 with status := .downloading }

/-- Queue holding the downloading job. -/
def w_state_c5 : QueueState := ⟨[w_dl_job], [3], [3], []⟩

/-- A CANCELLED job with a nonzero retry count and a stale error, used to
exercise `retry_job` on a status `can_retry` rejects. -/
def w_cx_job : BurnJob :=
  { new_burn_job 4 14 0 with
    status := .cancelled, retry_count := 2,
    error_message := some "Cancelled by user" }

/-- Queue holding the cancelled job, its id still on the dispatch list. -/
def w_state_c10 : QueueState := ⟨[w_cx_job], [4], [], []⟩

/-- A DOWNLOADING job for the disc-classification witness. -/
def w_c3_job : BurnJob := { new_burn_job 5 15 0 with status := .downloading }

/-- A subscriber callback that always raises. -/
def w_cb_throw : Callback := fun _ => .error "boom"

/-- A subscriber callback that succeeds. -/
def w_cb_ok : Callback := fun _ => .ok ()

/-- C9: calling `update_status` with the job's current status is a complete
no-op — the early `return` at `src/app/job_queue.py` line 141 leaves status,
`updated_at`, `error_message` and `notification_sent` untouched and performs
no API write-through, whatever message or `job_queue` argument is passed. -/
theorem C9_update_status_noop (job : BurnJob) (s : JobStatus)
    (msg : Option String) (now : Nat) (hq : Bool) (h : job.status = s) :
    job.update_status s msg now hq = (job, false) := by
  simp [BurnJob.update_status, h]

/-- Witness for C9 at a concrete PENDING job. -/
theorem C9_witness :
    (new_burn_job 7 17 3).status = .pending ∧
      (new_burn_job 7 17 3).update_status .pending (some "x") 9 true =
        (new_burn_job 7 17 3, false) :=
  ⟨rfl, C9_update_status_noop (new_burn_job 7 17 3) .pending (some "x") 9
    true rfl⟩

/-- C3: after a successful fetch onto a DOWNLOADING job, a size strictly
below 700 MiB classifies as CD, a size between 700 MiB and exactly
4608 MiB = 4.5 GiB (inclusive) classifies as DVD (both transitioning to
DOWNLOADED), and a size strictly above 4608 MiB is a fetch-stage failure:
the job transitions to FAILED with the size-exceeded message. -/
theorem C3_disc_classification (job : BurnJob) (path : String)
    (bytes now : Nat) (h : job.status = .downloading) :
    (bytes < 700 * 1048576 →
       (download_worker_job job (.success path bytes) now).1.disc_type =
           some "CD" ∧
         (download_worker_job job (.success path bytes) now).1.status =
           .downloaded) ∧
    (700 * 1048576 ≤ bytes → bytes ≤ 4608 * 1048576 →
       (download_worker_job job (.success path bytes) now).1.disc_type =
           some "DVD" ∧
         (download_worker_job job (.success path bytes) now).1.status =
           .downloaded) ∧
    (4608 * 1048576 < bytes →
       (download_worker_job job (.success path bytes) now).1.status =
           .failed ∧
         (download_worker_job job (.success path bytes) now).1.error_message
           = some "File size exceeds 4.5GB") := by
  refine ⟨fun h1 => ?_, fun h1 h2 => ?_, fun h1 => ?_⟩
  · simp [download_worker_job, detect_disc_type, h1, h,
      BurnJob.update_status]
  · have h3 : ¬ bytes < 700 * 1048576 := by omega
    simp [download_worker_job, detect_disc_type, h3, h2, h,
      BurnJob.update_status]
  · have h3 : ¬ bytes < 700 * 1048576 := by omega
    have h4 : ¬ bytes ≤ 4608 * 1048576 := by omega
    simp [download_worker_job, detect_disc_type, h3, h4, h,
      BurnJob.update_status]

/-- Witness for C3: a fetch of 4700 MiB fails the job with the
size-exceeded message. -/
theorem C3_witness :
    4608 * 1048576 < 4700 * 1048576 ∧
      ((download_worker_job w_c3_job (.success "a.iso" (4700 * 1048576))
            1).1.status = .failed ∧
        (download_worker_job w_c3_job (.success "a.iso" (4700 * 1048576))
            1).1.error_message = some "File size exceeds 4.5GB") :=
  ⟨by norm_num,
   (C3_disc_classification w_c3_job "a.iso" (4700 * 1048576) 1 rfl).2.2
     (by norm_num)⟩

/-- C4: `get_status` returns the first matching category in the fixed
priority order ERR > DON > INP > JDF and NOT_FOUND when no extension
matches; in particular (first conjunct, right to left) an ERR marker wins
over a simultaneously present DON marker. -/
theorem C4_marker_priority (dir : List String) (stem : String) :
    (jdf_get_status dir stem = .error ↔ has_marker dir stem "ERR" = true) ∧
    (jdf_get_status dir stem = .success ↔
       has_marker dir stem "DON" = true ∧
         has_marker dir stem "ERR" = false) ∧
    (jdf_get_status dir stem = .processing ↔
       has_marker dir stem "INP" = true ∧
         has_marker dir stem "ERR" = false ∧
         has_marker dir stem "DON" = false) ∧
    (jdf_get_status dir stem = .waiting ↔
       has_marker dir stem "JDF" = true ∧
         has_marker dir stem "ERR" = false ∧
         has_marker dir stem "DON" = false ∧
         has_marker dir stem "INP" = false) ∧
    (jdf_get_status dir stem = .not_found ↔
       has_marker dir stem "ERR" = false ∧
         has_marker dir stem "DON" = false ∧
         has_marker dir stem "INP" = false ∧
         has_marker dir stem "JDF" = false) := by
  cases hE : has_marker dir stem "ERR" <;>
    cases hD : has_marker dir stem "DON" <;>
      cases hI : has_marker dir stem "INP" <;>
        cases hJ : has_marker dir stem "JDF" <;>
          simp [jdf_get_status, file_ext_map, hE, hD, hI, hJ]

/-- Witness for C4: with both `X.DON` and `X.ERR` present the reader
reports ERROR. -/
theorem C4_witness : jdf_get_status ["X.DON", "X.ERR"] "X" = .error :=
  (C4_marker_priority ["X.DON", "X.ERR"] "X").1.mpr (by decide)

/-- C7: `_notify_job_update` invokes every registered callback exactly once
with the job, in registration order, whatever exceptions individual
callbacks raise — a raised exception is caught (recorded as a
`logged_error` trace event) and never prevents later-registered callbacks
from being invoked, and the function's pure return type reflects that no
subscriber exception propagates to the caller. -/
theorem C7_subscriber_isolation (callbacks : List Callback) (job : BurnJob) :
    (notify_job_update callbacks job).filterMap (fun e =>
        match e with
        | .invoked i j => some (i, j)
        | .logged_error _ _ => none) =
      (List.range callbacks.length).map (fun i => (i, job)) := by
  have aux : ∀ (cbs : List Callback) (idx : Nat),
      (run_callbacks job idx cbs).filterMap (fun e =>
          match e with
          | .invoked i j => some (i, j)
          | .logged_error _ _ => none) =
        (List.range' idx cbs.length).map (fun i => (i, job)) := by
    intro cbs
    induction cbs with
    | nil => intro idx; rfl
    | cons cb rest ih =>
      intro idx
      cases hcb : cb job <;>
        simp [run_callbacks, hcb, List.range'_succ, List.filterMap_cons, ih]
  rw [notify_job_update, aux callbacks 0, List.range_eq_range']

/-- Witness for C7: with a throwing callback registered before a succeeding
one, both are still invoked exactly once with the job. -/
theorem C7_witness :
    (notify_job_update [w_cb_throw, w_cb_ok] (new_burn_job 8 18 0)).filterMap
        (fun e =>
          match e with
          | .invoked i j => some (i, j)
          | .logged_error _ _ => none) =
      (List.range 2).map (fun i => (i, new_burn_job 8 18 0)) :=
  C7_subscriber_isolation [w_cb_throw, w_cb_ok] (new_burn_job 8 18 0)

/-- Accounting for the `for iso_info in new_isos:` loop: `added_count` is
positive exactly when some added item persisted, and every added item was
not previously known. -/
theorem add_new_isos_spec (save_ok : Nat → Bool) :
    ∀ (isos existing : List Nat),
      (0 < (add_new_isos save_ok existing isos).2 ↔
        ∃ i ∈ (add_new_isos save_ok existing isos).1, save_ok i = true) ∧
      (∀ i ∈ (add_new_isos save_ok existing isos).1, i ∉ existing) := by
  intro isos
  induction isos with
  | nil => intro existing; simp [add_new_isos]
  | cons iso rest ih =>
    intro existing
    cases hc : existing.contains iso with
    | true =>
      have hc2 : iso ∈ existing := by simpa using hc
      simpa [add_new_isos, hc2] using ih existing
    | false =>
      have hmem : iso ∉ existing := by simpa using hc
      constructor
      · rcases ih (existing ++ [iso]) with ⟨ih1, _⟩
        cases hs : save_ok iso with
        | true =>
          constructor
          · intro _
            exact ⟨iso, by simp [add_new_isos, hmem], hs⟩
          · intro _
            simp [add_new_isos, hmem, hs]
        | false => simp [add_new_isos, hmem, hs, ih1]
      · intro i hi
        simp [add_new_isos, hmem] at hi
        rcases hi with rfl | hi
        · exact hmem
        · have h2 := (ih (existing ++ [iso])).2 i hi
          simp at h2
          exact h2.1

/-- C8 counterexample: (a) a successful query round-trip that returns an
empty list takes the early `return False` at line 310 and never records
`last_api_check`, contradicting "recorded after every successful query
round-trip"; (b) when persisting the one new item raises, `add_job` has
already run (a job was added) yet the function returns false, contradicting
"returns true iff at least one new job was added". -/
theorem C8_counterexample :
    (check_for_new_isos [] (.ok []) (fun _ => true)).last_check_recorded
        = false ∧
      (check_for_new_isos [] (.ok [7]) (fun _ => false)).ret = false ∧
      (check_for_new_isos [] (.ok [7]) (fun _ => false)).added = [7] :=
  ⟨rfl, rfl, rfl⟩

/-- C8 as amended: the run returns true iff at least one added job was also
persisted without error; every added item's id was previously unknown; and
the last-check timestamp is recorded exactly when the round-trip succeeds
AND returns at least one item (it is skipped both on error and on an empty
result). -/
theorem C8_amended_behavior (existing : List Nat) (query : QueryResult)
    (save_ok : Nat → Bool) :
    ((check_for_new_isos existing query save_ok).last_check_recorded = true
        ↔ ∃ isos, query = .ok isos ∧ isos ≠ []) ∧
      ((check_for_new_isos existing query save_ok).ret = true ↔
        ∃ i ∈ (check_for_new_isos existing query save_ok).added,
          save_ok i = true) ∧
      (∀ i ∈ (check_for_new_isos existing query save_ok).added,
        i ∉ existing) := by
  cases query with
  | raised msg => simp [check_for_new_isos]
  | ok isos =>
    cases he : isos.isEmpty with
    | true =>
      have : isos = [] := List.isEmpty_iff.mp he
      subst this
      simp [check_for_new_isos]
    | false =>
      have hne : isos ≠ [] := by
        intro h; subst h; simp at he
      rcases add_new_isos_spec save_ok isos existing with ⟨h1, h2⟩
      refine ⟨by simp [check_for_new_isos, he, hne], ?_, ?_⟩
      · simpa [check_for_new_isos, he] using h1
      · simpa [check_for_new_isos, he] using h2

/-- Witness for C8 (amended): a successful query with one genuinely new,
persisted item records the timestamp. -/
theorem C8_witness :
    (check_for_new_isos [] (.ok [7]) (fun _ => true)).last_check_recorded
      = true :=
  (C8_amended_behavior [] (.ok [7]) (fun _ => true)).1.mpr
    ⟨[7], rfl, by simp⟩

/-- Writing back a mutated job whose id was just looked up makes the lookup
return the mutated record. -/
theorem find?_map_replace (l : List BurnJob) (id : Nat) (job j' : BurnJob)
    (hfind : l.find? (fun j => j.id == id) = some job) (hid : j'.id = id) :
    (l.map (fun k => if k.id == j'.id then j' else k)).find?
        (fun j => j.id == id) = some j' := by
  induction l with
  | nil => simp at hfind
  | cons k rest ih =>
    by_cases hk : k.id = id
    · simp [hk, hid]
    · have hne : ¬ ((k.id == j'.id) = true) := by simp [hid, hk]
      rw [List.find?_cons_of_neg _ (by simp [hk])] at hfind
      rw [List.map_cons, if_neg hne,
        List.find?_cons_of_neg _ (by simp [hk])]
      exact ih hfind

/-- `find_job` after `set_job` returns the written record. -/
theorem find_job_set_job (st : QueueState) (id : Nat) (job j' : BurnJob)
    (hfind : find_job st id = some job) (hid : j'.id = id) :
    find_job (set_job st j') id = some j' := by
  simp only [find_job, set_job] at *
  exact find?_map_replace st.jobs id job j' hfind hid

/-- Soundness of the `get_next_job` scan loop: a returned job is the first
non-dropped entry and passes the gate; a `none` result leaves either an
empty list or a gate-blocked valid head, after dequeuing only dropped
ids. -/
theorem get_next_job_aux_sound (jobs : List BurnJob) (mc : Nat) :
    ∀ q : List Nat,
      (∀ job q', get_next_job_aux jobs mc q = (some job, q') →
        ∃ pre, q = pre ++ job.id :: q' ∧ (∀ i ∈ pre, dropped_id jobs i) ∧
          jobs.find? (fun j => j.id == job.id) = some job ∧
          status_mem job.status [.cancelled, .completed, .failed] = false ∧
          can_process_job jobs mc job = true) ∧
      (∀ q', get_next_job_aux jobs mc q = (none, q') →
        ∃ pre, q = pre ++ q' ∧ (∀ i ∈ pre, dropped_id jobs i) ∧
          (q' = [] ∨ ∃ id rest job, q' = id :: rest ∧
            jobs.find? (fun j => j.id == id) = some job ∧
            status_mem job.status [.cancelled, .completed, .failed] = false ∧
            can_process_job jobs mc job = false)) := by
  intro q
  induction q with
  | nil =>
    constructor
    · intro job q' h
      simp [get_next_job_aux] at h
    · intro q' h
      simp only [get_next_job_aux, Prod.mk.injEq] at h
      exact ⟨[], by simp [h.2], by simp, Or.inl h.2.symm⟩
  | cons id rest ih =>
    cases hfind : jobs.find? (fun j => j.id == id) with
    | none =>
      have hstep : get_next_job_aux jobs mc (id :: rest) =
          get_next_job_aux jobs mc rest := by
        simp [get_next_job_aux, hfind]
      constructor
      · intro job q' h
        rw [hstep] at h
        obtain ⟨pre, hq, hdrop, h3, h4, h5⟩ := ih.1 job q' h
        refine ⟨id :: pre, by rw [hq]; rfl, ?_, h3, h4, h5⟩
        intro i hi
        rcases List.mem_cons.mp hi with rfl | hi
        · exact Or.inl hfind
        · exact hdrop i hi
      · intro q' h
        rw [hstep] at h
        obtain ⟨pre, hq, hdrop, h3⟩ := ih.2 q' h
        refine ⟨id :: pre, by rw [hq]; rfl, ?_, h3⟩
        intro i hi
        rcases List.mem_cons.mp hi with rfl | hi
        · exact Or.inl hfind
        · exact hdrop i hi
    | some j0 =>
      cases hterm : status_mem j0.status [.cancelled, .completed, .failed]
        with
      | true =>
        have hstep : get_next_job_aux jobs mc (id :: rest) =
            get_next_job_aux jobs mc rest := by
          simp [get_next_job_aux, hfind, hterm]
        constructor
        · intro job q' h
          rw [hstep] at h
          obtain ⟨pre, hq, hdrop, h3, h4, h5⟩ := ih.1 job q' h
          refine ⟨id :: pre, by rw [hq]; rfl, ?_, h3, h4, h5⟩
          intro i hi
          rcases List.mem_cons.mp hi with rfl | hi
          · exact Or.inr ⟨j0, hfind, hterm⟩
          · exact hdrop i hi
        · intro q' h
          rw [hstep] at h
          obtain ⟨pre, hq, hdrop, h3⟩ := ih.2 q' h
          refine ⟨id :: pre, by rw [hq]; rfl, ?_, h3⟩
          intro i hi
          rcases List.mem_cons.mp hi with rfl | hi
          · exact Or.inr ⟨j0, hfind, hterm⟩
          · exact hdrop i hi
      | false =>
        have hid0 : j0.id = id := by
          have := List.find?_some hfind
          simpa using this
        cases hgate : can_process_job jobs mc j0 with
        | true =>
          have hstep : get_next_job_aux jobs mc (id :: rest) =
              (some j0, rest) := by
            simp [get_next_job_aux, hfind, hterm, hgate]
          constructor
          · intro job q' h
            rw [hstep] at h
            simp only [Prod.mk.injEq, Option.some.injEq] at h
            obtain ⟨rfl, rfl⟩ := h
            exact ⟨[], by simp [hid0], by simp, by rw [hid0]; exact hfind,
              hterm, hgate⟩
          · intro q' h
            rw [hstep] at h
            simp at h
        | false =>
          have hstep : get_next_job_aux jobs mc (id :: rest) =
              (none, id :: rest) := by
            simp [get_next_job_aux, hfind, hterm, hgate]
          constructor
          · intro job q' h
            rw [hstep] at h
            simp at h
          · intro q' h
            rw [hstep] at h
            simp only [Prod.mk.injEq] at h
            refine ⟨[], by simp [h.2], by simp,
              Or.inr ⟨id, rest, j0, h.2.symm, hfind, hterm, hgate⟩⟩

/-- C2: `get_next_job` scans the FIFO list from the head, dequeuing only
ids that are missing from the table or refer to terminal jobs; a returned
job is the first surviving entry, is dequeued, and satisfies the admission
gate; a `none` result leaves either an exhausted list or the gate-blocked
surviving head still enqueued, never skipping past it. -/
theorem C2_get_next_job_spec (st : QueueState) (mc : Nat) :
    (∀ job q', get_next_job st mc = (some job, q') →
      ∃ pre, st.job_queue = pre ++ job.id :: q' ∧
        (∀ i ∈ pre, dropped_id st.jobs i) ∧
        st.jobs.find? (fun j => j.id == job.id) = some job ∧
        status_mem job.status [.cancelled, .completed, .failed] = false ∧
        can_process_job st.jobs mc job = true) ∧
    (∀ q', get_next_job st mc = (none, q') →
      ∃ pre, st.job_queue = pre ++ q' ∧
        (∀ i ∈ pre, dropped_id st.jobs i) ∧
        (q' = [] ∨ ∃ id rest job, q' = id :: rest ∧
          st.jobs.find? (fun j => j.id == id) = some job ∧
          status_mem job.status [.cancelled, .completed, .failed] = false ∧
          can_process_job st.jobs mc job = false)) :=
  get_next_job_aux_sound st.jobs mc st.job_queue

/-- Witness for C2 at a concrete queue: the terminal head is dropped and
the PENDING job behind it is selected and dequeued. -/
theorem C2_witness :
    ∃ pre, w_st_c2.job_queue = pre ++ w_pend_job.id :: ([] : List Nat) ∧
      (∀ i ∈ pre, dropped_id w_st_c2.jobs i) ∧
      w_st_c2.jobs.find? (fun j => j.id == w_pend_job.id) = some w_pend_job ∧
      status_mem w_pend_job.status [.cancelled, .completed, .failed]
        = false ∧
      can_process_job w_st_c2.jobs 1 w_pend_job = true :=
  (C2_get_next_job_spec w_st_c2 1).1 w_pend_job [] rfl

/-- C1 as amended: the gate does not bound the total number of active jobs
(see the counterexample), but it does guarantee that `get_next_job`
dispatches a job whose status is already active (DOWNLOADING, BURNING or
VERIFYING) only while the active count is strictly below
`max_concurrent_jobs`. -/
theorem C1_amended_gate (st : QueueState) (mc : Nat) (job : BurnJob)
    (q' : List Nat) (h : get_next_job st mc = (some job, q'))
    (hactive : status_mem job.status in_progress_statuses = true) :
    active_count st.jobs < mc := by
  obtain ⟨-, -, -, -, -, hgate⟩ :=
    ((get_next_job_aux_sound st.jobs mc st.job_queue).1 job q' h)
  simpa [can_process_job, hactive] using hgate

/-- Witness for C1 (amended): a BURNING job at the head is dispatched with
`max_concurrent_jobs = 2`, and indeed the active count (1) is below 2. -/
theorem C1_witness : active_count w_state_c1.jobs < 2 :=
  C1_amended_gate w_state_c1 2 w_burning_job [] rfl rfl

/-- C5: `cancel_job` is a pure no-op returning false (no job mutation, no
dispatch-list change, no events at all, hence no notification) when the id
is absent or the job is terminal; otherwise it returns true, rewrites the
job to CANCELLED, removes the id from the dispatch list, and emits a
download-abort request exactly when the job was DOWNLOADING. -/
theorem C5_cancel_job_spec (st : QueueState) (id now : Nat) :
    ((find_job st id = none ∨
        ∃ j, find_job st id = some j ∧
          status_mem j.status [.completed, .failed, .cancelled] = true) →
      cancel_job st id now = ⟨false, st, []⟩) ∧
    (∀ job, find_job st id = some job →
      status_mem job.status [.completed, .failed, .cancelled] = false →
      (cancel_job st id now).ret = true ∧
        find_job (cancel_job st id now).st id = some
          { job with
            status := .cancelled, updated_at := now,
            error_message := some "Cancelled by user",
            notification_sent := false } ∧
        (cancel_job st id now).st.job_queue = st.job_queue.erase id ∧
        (Event.cancel_download job.iso_id ∈ (cancel_job st id now).events ↔
          job.status = .downloading)) := by
  constructor
  · rintro (hnone | ⟨j, hj, hterm⟩)
    · simp [cancel_job, hnone]
    · simp [cancel_job, hj, hterm]
  · intro job hfind hterm
    have h' : st.jobs.find? (fun j => j.id == id) = some job := hfind
    have hid : job.id = id := by simpa using List.find?_some h'
    have hnc : job.status ≠ .cancelled := by
      intro hcx
      rw [hcx] at hterm
      simp [status_mem] at hterm
    have hupd : job.update_status .cancelled (some "Cancelled by user") now
        true =
        ({ job with
            status := .cancelled, updated_at := now,
            error_message := some "Cancelled by user",
            notification_sent := false }, false) := by
      simp [BurnJob.update_status, hnc, status_mem]
    refine ⟨?_, ?_, ?_, ?_⟩
    · simp [cancel_job, hfind, hterm, hupd]
    · simp only [cancel_job, hfind, hterm, hupd]
      exact find_job_set_job st id job _ hfind (by simp [hid])
    · simp [cancel_job, hfind, hterm, hupd, set_job]
    · simp only [cancel_job, hfind, hterm, hupd]
      by_cases hd : job.status = .downloading <;>
        simp [api_events, hd]

/-- Witness for C5: cancelling a concrete DOWNLOADING job returns true,
rewrites it to CANCELLED, dequeues it and emits the download abort. -/
theorem C5_witness :
    (cancel_job w_state_c5 3 9).ret = true ∧
      find_job (cancel_job w_state_c5 3 9).st 3 = some
        { w_dl_job with
          status := .cancelled, updated_at := 9,
          error_message := some "Cancelled by user",
          notification_sent := false } ∧
      (cancel_job w_state_c5 3 9).st.job_queue =
        w_state_c5.job_queue.erase 3 ∧
      (Event.cancel_download w_dl_job.iso_id ∈
          (cancel_job w_state_c5 3 9).events ↔
        w_dl_job.status = .downloading) :=
  (C5_cancel_job_spec w_state_c5 3 9).2 w_dl_job rfl rfl

/-- C10: `retry_job` succeeds for every id present in the job table,
whatever the job's status (including CANCELLED and active states),
resetting to PENDING with paths, progress and error cleared, leaving
`retry_count` untouched (the `can_retry` predicate is never consulted:
presence is the only requirement), and unconditionally appending the id —
so an id still on the dispatch list afterwards occurs at least twice. -/
theorem C10_retry_job_unconditional (st : QueueState) (id now : Nat)
    (job : BurnJob) (h : find_job st id = some job) :
    (retry_job st id now).ret = true ∧
      (∃ j, find_job (retry_job st id now).st id = some j ∧
        j.status = .pending ∧ j.iso_path = none ∧ j.jdf_path = none ∧
        j.progress = 0 ∧ j.error_message = none ∧
        j.notification_sent = false ∧ j.retry_count = job.retry_count) ∧
      (retry_job st id now).st.job_queue = st.job_queue ++ [id] ∧
      (id ∈ st.job_queue →
        2 ≤ List.count id (retry_job st id now).st.job_queue) := by
  have h' : st.jobs.find? (fun j => j.id == id) = some job := h
  have hid : job.id = id := by simpa using List.find?_some h'
  have hcount : (retry_job st id now).st.job_queue = st.job_queue ++ [id] →
      id ∈ st.job_queue →
      2 ≤ List.count id (retry_job st id now).st.job_queue := by
    intro hq hmem
    rw [hq, List.count_append]
    have h1 : 0 < List.count id st.job_queue := List.count_pos_iff.mpr hmem
    have h2 : List.count id [id] = 1 := by simp
    omega
  by_cases hp : job.status = .pending
  · have hupd : job.update_status .pending none now false = (job, false) := by
      simp [BurnJob.update_status, hp]
    have hq : (retry_job st id now).st.job_queue = st.job_queue ++ [id] := by
      simp [retry_job, h, hupd, set_job]
    refine ⟨by simp [retry_job, h, hupd], ?_, hq, hcount hq⟩
    refine ⟨{ job with
      error_message := none, progress := 0,
      notification_sent := false, iso_path := none, jdf_path := none },
      ?_, by simp [hp], by simp, by simp, by simp, by simp, by simp,
      by simp⟩
    simp only [retry_job, h, hupd]
    exact find_job_set_job st id job _ h (by simp [hid])
  · have hupd : job.update_status .pending none now false =
        ({ job with
            status := .pending, updated_at := now,
            error_message := none, notification_sent := false }, false) := by
      simp [BurnJob.update_status, hp, status_mem]
    have hq : (retry_job st id now).st.job_queue = st.job_queue ++ [id] := by
      simp [retry_job, h, hupd, set_job]
    refine ⟨by simp [retry_job, h, hupd], ?_, hq, hcount hq⟩
    refine ⟨{ job with
      status := .pending, updated_at := now,
      error_message := none, progress := 0, notification_sent := false,
      iso_path := none, jdf_path := none },
      ?_, by simp, by simp, by simp, by simp, by simp, by simp, by simp⟩
    simp only [retry_job, h, hupd]
    exact find_job_set_job st id job _ h (by simp [hid])

/-- Witness for C10: retrying a concrete CANCELLED job (for which
`can_retry` is false) succeeds, resets it, and duplicates its id on the
dispatch list. -/
theorem C10_witness :
    (retry_job w_state_c10 4 9).ret = true ∧
      (∃ j, find_job (retry_job w_state_c10 4 9).st 4 = some j ∧
        j.status = .pending ∧ j.iso_path = none ∧ j.jdf_path = none ∧
        j.progress = 0 ∧ j.error_message = none ∧
        j.notification_sent = false ∧
        j.retry_count = w_cx_job.retry_count) ∧
      (retry_job w_state_c10 4 9).st.job_queue =
        w_state_c10.job_queue ++ [4] ∧
      (4 ∈ w_state_c10.job_queue →
        2 ≤ List.count 4 (retry_job w_state_c10 4 9).st.job_queue) :=
  C10_retry_job_unconditional w_state_c10 4 9 w_cx_job rfl

/-- `update_status` preserves `JobOk` whenever the message is empty or the
target status is FAILED or CANCELLED — which covers every call site. -/
theorem job_ok_update (j : BurnJob) (s : JobStatus) (msg : Option String)
    (now : Nat) (hq : Bool) (hj : JobOk j)
    (hmsg : msg = none ∨ s = .failed ∨ s = .cancelled) :
    JobOk (j.update_status s msg now hq).1 := by
  by_cases he : j.status = s
  · simpa [BurnJob.update_status, he] using hj
  · simp only [BurnJob.update_status, if_neg he]
    intro hne
    rcases hmsg with rfl | hs
    · simp at hne
    · simpa using hs

/-- `JobOk` transfers along equal status and error fields. -/
theorem job_ok_same_fields {x y : BurnJob} (hok : JobOk x)
    (hst : y.status = x.status) (herr : y.error_message = x.error_message) :
    JobOk y := by
  intro hne
  rw [hst]
  exact hok (herr ▸ hne)

/-- `InvErr` only looks at the job table. -/
theorem inv_of_jobs_eq {s t : QueueState} (h : InvErr s)
    (ht : t.jobs = s.jobs) : InvErr t := by
  intro j hj
  exact h j (ht ▸ hj)

/-- Writing back a `JobOk` record preserves the invariant. -/
theorem inv_set_job {st : QueueState} {j' : BurnJob} (h : InvErr st)
    (hj : JobOk j') : InvErr (set_job st j') := by
  intro j hjmem
  simp only [set_job] at hjmem
  rcases List.mem_map.mp hjmem with ⟨k, hk, hkeq⟩
  by_cases hc : (k.id == j'.id) = true
  · rw [if_pos hc] at hkeq
    exact hkeq ▸ hj
  · rw [if_neg hc] at hkeq
    exact hkeq ▸ h k hk

/-- `add_job` creates a job with no error message. -/
theorem inv_add_job {st : QueueState} (h : InvErr st) (id iso now : Nat) :
    InvErr (add_job st id iso now).1 := by
  intro j hj
  simp only [add_job, List.mem_append, List.mem_singleton] at hj
  rcases hj with hj | rfl
  · exact h j hj
  · intro hne
    simp [new_burn_job] at hne

/-- `cancel_job` installs its message together with CANCELLED. -/
theorem inv_cancel_job {st : QueueState} (h : InvErr st) (id now : Nat) :
    InvErr (cancel_job st id now).st := by
  cases hf : find_job st id with
  | none => simpa [cancel_job, hf] using h
  | some job =>
    cases hterm : status_mem job.status [.completed, .failed, .cancelled]
      with
    | true => simpa [cancel_job, hf, hterm] using h
    | false =>
      have hok : JobOk (job.update_status .cancelled
          (some "Cancelled by user") now true).1 :=
        job_ok_update job _ _ now true
          (h job (List.mem_of_find?_eq_some hf)) (Or.inr (Or.inr rfl))
      refine inv_of_jobs_eq (inv_set_job h hok) ?_
      simp [cancel_job, hf, hterm, set_job]

/-- `retry_job` clears the error message. -/
theorem inv_retry_job {st : QueueState} (h : InvErr st) (id now : Nat) :
    InvErr (retry_job st id now).st := by
  cases hf : find_job st id with
  | none => simpa [retry_job, hf] using h
  | some job =>
    have hok : JobOk { (job.update_status .pending none now false).1 with
        error_message := none, progress := 0, notification_sent := false,
        iso_path := none, jdf_path := none } := by
      intro hne
      simp at hne
    refine inv_of_jobs_eq (inv_set_job h hok) ?_
    simp [retry_job, hf, set_job]

/-- `_start_download` performs a message-free transition. -/
theorem inv_start_download {st : QueueState} {job : BurnJob}
    (h : InvErr st) (hjob : JobOk job) (now : Nat) :
    InvErr (start_download st job now).1 := by
  simp only [start_download]
  split
  · exact h
  · exact inv_of_jobs_eq (inv_set_job h
      (job_ok_update _ _ _ _ _ hjob (Or.inl rfl))) rfl

/-- `_start_jdf_generation` sets a message only on its FAILED branches. -/
theorem inv_start_jdf_generation {st : QueueState} {job : BurnJob}
    (h : InvErr st) (hjob : JobOk job) (jr : Except String String)
    (now : Nat) : InvErr (start_jdf_generation st job jr now).1 := by
  simp only [start_jdf_generation]
  split
  · exact h
  · split
    · exact inv_set_job h
        (job_ok_update _ _ _ _ _ hjob (Or.inr (Or.inl rfl)))
    · have hok1 : JobOk (job.update_status .generating_jdf none now
          false).1 :=
        job_ok_update _ _ _ _ _ hjob (Or.inl rfl)
      split
      · exact inv_set_job (inv_set_job h hok1)
          (job_ok_update _ _ _ _ _ (job_ok_same_fields hok1 rfl rfl)
            (Or.inl rfl))
      · exact inv_set_job (inv_set_job h hok1)
          (job_ok_update _ _ _ _ _ hok1 (Or.inr (Or.inl rfl)))

/-- `_queue_for_burning` performs a message-free transition. -/
theorem inv_queue_for_burning {st : QueueState} {job : BurnJob}
    (h : InvErr st) (hjob : JobOk job) (now : Nat) :
    InvErr (queue_for_burning st job now).1 := by
  simp only [queue_for_burning]
  split
  · exact h
  · exact inv_set_job h (job_ok_update _ _ _ _ _ hjob (Or.inl rfl))

/-- `_start_burning` performs a message-free transition. -/
theorem inv_start_burning {st : QueueState} {job : BurnJob}
    (h : InvErr st) (hjob : JobOk job) (now : Nat) :
    InvErr (start_burning st job now).1 := by
  simp only [start_burning]
  split
  · exact h
  · refine inv_of_jobs_eq (inv_set_job h ?_) rfl
    exact job_ok_same_fields (job_ok_update _ _ _ _ _ hjob (Or.inl rfl))
      rfl rfl

/-- `start_job_processing` dispatches to handlers that all preserve
`JobOk`. -/
theorem inv_start_job_processing {st : QueueState} {job : BurnJob}
    (h : InvErr st) (hjob : JobOk job) (jr : Except String String)
    (now : Nat) : InvErr (start_job_processing st job jr now).1 := by
  simp only [start_job_processing]
  split
  · exact h
  · split
    · exact inv_start_download h hjob now
    · split
      · exact inv_start_jdf_generation h hjob jr now
      · split
        · exact inv_queue_for_burning h hjob now
        · split
          · exact inv_start_burning h hjob now
          · exact h

/-- `_download_worker` sets a message only with FAILED. -/
theorem job_ok_download_worker {job : BurnJob} (hjob : JobOk job)
    (outcome : DownloadOutcome) (now : Nat) :
    JobOk (download_worker_job job outcome now).1 := by
  cases outcome with
  | success path bytes =>
    simp only [download_worker_job]
    split
    · split
      · exact job_ok_same_fields hjob rfl rfl
      · exact job_ok_update _ _ _ _ _ (job_ok_same_fields hjob rfl rfl)
          (Or.inl rfl)
    · exact job_ok_update _ _ _ _ _ (job_ok_same_fields hjob rfl rfl)
        (Or.inr (Or.inl rfl))
  | returned_none =>
    simp only [download_worker_job]
    split
    · exact hjob
    · exact job_ok_update _ _ _ _ _ hjob (Or.inr (Or.inl rfl))
  | raised msg =>
    exact job_ok_update _ _ _ _ _ hjob (Or.inr (Or.inl rfl))

/-- Queue-level download-worker completion preserves the invariant. -/
theorem inv_download_worker {st : QueueState} (h : InvErr st) (id : Nat)
    (outcome : DownloadOutcome) (now : Nat) :
    InvErr (download_worker st id outcome now).1 := by
  cases hf : find_job st id with
  | none => simpa [download_worker, hf] using h
  | some job =>
    have hjob : JobOk job := h job (List.mem_of_find?_eq_some hf)
    refine inv_of_jobs_eq
      (inv_set_job h (job_ok_download_worker hjob outcome now)) ?_
    simp [download_worker, hf, set_job]

/-- `_check_burn_status` sets a message only with FAILED. -/
theorem job_ok_check_burn {job : BurnJob} (hjob : JobOk job)
    (marker : JdfStatus) (now : Nat) :
    JobOk (check_burn_status_job job marker now).1 := by
  cases marker with
  | success =>
    exact job_ok_same_fields
      (job_ok_update _ _ _ _ _ hjob (Or.inl rfl)) rfl rfl
  | processing => exact job_ok_same_fields hjob rfl rfl
  | error => exact job_ok_update _ _ _ _ _ hjob (Or.inr (Or.inl rfl))
  | waiting => exact hjob
  | not_found => exact hjob

/-- A burn-loop iteration preserves the invariant. -/
theorem inv_burn_loop_tick {st : QueueState} (h : InvErr st) (id : Nat)
    (t : Bool) (marker : JdfStatus) (now : Nat) :
    InvErr (burn_loop_tick st id t marker now).1 := by
  cases hf : find_job st id with
  | none => simpa [burn_loop_tick, hf] using h
  | some job =>
    have hjob : JobOk job := h job (List.mem_of_find?_eq_some hf)
    simp only [burn_loop_tick, hf]
    split
    · split
      · exact inv_of_jobs_eq (inv_set_job h
          (job_ok_update _ _ _ _ _ hjob (Or.inr (Or.inl rfl)))) rfl
      · exact inv_of_jobs_eq
          (inv_set_job h (job_ok_check_burn hjob marker now)) rfl
    · exact inv_of_jobs_eq h rfl

/-- `_check_ready_jobs` preserves the invariant. -/
theorem inv_check_ready {st : QueueState} (h : InvErr st) (mc : Nat)
    (jr : Except String String) (now : Nat) :
    InvErr (check_ready_jobs st mc jr now).1 := by
  simp only [check_ready_jobs]
  split
  · exact h
  · rename_i job rest hr
    split
    · have hmem : job ∈ st.jobs := by
        have hjf : job ∈ st.jobs.filter (fun j =>
            status_mem j.status
              [.downloaded, .jdf_ready, .queued_for_burning]) := by
          rw [hr]
          exact List.mem_cons_self job rest
        exact (List.mem_filter.mp hjf).1
      exact inv_start_job_processing h (h job hmem) jr now
    · exact h

/-- One dispatch round of the background worker preserves the invariant. -/
theorem inv_dispatch {st : QueueState} (h : InvErr st) (mc : Nat)
    (jr : Except String String) (now : Nat) :
    InvErr (process_job_queue_dispatch st mc jr now).1 := by
  rcases hgn : get_next_job st mc with ⟨res, q⟩
  cases res with
  | none =>
    simp only [process_job_queue_dispatch, hgn]
    exact inv_of_jobs_eq h rfl
  | some job =>
    simp only [process_job_queue_dispatch, hgn]
    obtain ⟨-, -, -, hfind, -, -⟩ :=
      (get_next_job_aux_sound st.jobs mc st.job_queue).1 job q hgn
    have hjob : JobOk job := h job (List.mem_of_find?_eq_some hfind)
    have hst2 : InvErr {
        jobs := st.jobs, job_queue := q,
        downloads := st.downloads, burn_threads := st.burn_threads } :=
      fun j hj => h j hj
    exact inv_start_job_processing hst2 hjob jr now

/-- A progress callback preserves the invariant. -/
theorem inv_progress {st : QueueState} (h : InvErr st) (iso pct now : Nat) :
    InvErr (on_download_progress st iso pct now).1 := by
  simp only [on_download_progress]
  split
  · exact h
  · rename_i job hf
    have hjob : JobOk job := h job (List.mem_of_find?_eq_some hf)
    refine inv_of_jobs_eq (inv_set_job h ?_) rfl
    exact job_ok_same_fields hjob rfl rfl

/-- Cleanup only removes jobs. -/
theorem inv_cleanup {st : QueueState} (h : InvErr st) (cutoff : Nat) :
    InvErr (cleanup_completed_jobs st cutoff) := by
  intro j hj
  simp only [cleanup_completed_jobs] at hj
  exact h j (List.mem_filter.mp hj).1

/-- C6 counterexample: cancelling a freshly added PENDING job yields a
reachable state holding a job whose status is CANCELLED — not FAILED — yet
whose `errorMessage` is the non-empty "Cancelled by user" installed by
`cancel_job` (line 598), contradicting "a job whose status is not FAILED
always has no errorMessage". -/
theorem C6_counterexample :
    Reachable 4 c6_s2 ∧ find_job c6_s2 1 = some c6_bad_job ∧
      c6_bad_job.status ≠ .failed ∧
      c6_bad_job.error_message = some "Cancelled by user" := by
  refine ⟨?_, by decide, by decide, rfl⟩
  exact Reachable.step
    (Reachable.step Reachable.init (Step.add init_state 1 101 0 rfl))
    (Step.cancel c6_s1 1 1)

/-- C6 as amended: in every reachable state, a non-empty `errorMessage`
implies the job's status is FAILED or CANCELLED — i.e. the message is
installed only by transitions into FAILED or by cancellation (which writes
"Cancelled by user"); every other transition or reset clears it. -/
theorem C6_error_message_invariant (mc : Nat) (s : QueueState)
    (h : Reachable mc s) :
    ∀ j ∈ s.jobs, j.error_message ≠ none →
      j.status = .failed ∨ j.status = .cancelled := by
  induction h with
  | init =>
    intro j hj
    simp [init_state] at hj
  | step hr hstep ih =>
    have hinv : InvErr _ := ih
    cases hstep with
    | add id iso now hfresh => exact inv_add_job hinv id iso now
    | dispatch jr now => exact inv_dispatch hinv mc jr now
    | ready jr now => exact inv_check_ready hinv mc jr now
    | download_done id outcome now hmem =>
      exact inv_download_worker hinv id outcome now
    | burn_tick id t marker now hmem =>
      exact inv_burn_loop_tick hinv id t marker now
    | cancel id now => exact inv_cancel_job hinv id now
    | retry id now => exact inv_retry_job hinv id now
    | progress_cb iso pct now => exact inv_progress hinv iso pct now
    | cleanup cutoff => exact inv_cleanup hinv cutoff

/-- Witness for C6 (amended) at the cancelled job of the concrete trace. -/
theorem C6_witness :
    c6_bad_job.status = .failed ∨ c6_bad_job.status = .cancelled :=
  C6_error_message_invariant 4 c6_s2
    (Reachable.step
      (Reachable.step Reachable.init (Step.add init_state 1 101 0 rfl))
      (Step.cancel c6_s1 1 1))
    c6_bad_job (by decide) (by decide)

/-- C1 counterexample: with `max_concurrent_jobs = 1`, adding two jobs and
letting the worker dispatch twice is a reachable run in which both jobs are
DOWNLOADING — the gate admits any job whose status is not yet active, so
the second PENDING job is dispatched at full capacity and the active count
reaches 2 > 1. -/
theorem C1_counterexample :
    Reachable 1 c1_s4 ∧ 1 < active_count c1_s4.jobs := by
  constructor
  · exact Reachable.step
      (Reachable.step
        (Reachable.step
          (Reachable.step Reachable.init (Step.add init_state 1 101 0 rfl))
          (Step.add c1_s1 2 102 0 (by decide)))
        (Step.dispatch c1_s2 c1_jr 1))
      (Step.dispatch c1_s3 c1_jr 2)
  · decide

end EdenBurner
